import Mathlib

/-!
Verification of the `soapysdr-sys` stream-setup compatibility shim
(`wrapper.c` / `wrapper.h`).

The shim is the single C function `_rust_wrapper_SoapySDRDevice_setupStream`,
which dispatches at compile time (preprocessor `#if`) on
`SOAPY_SDR_API_VERSION < 0x00080000` between two calling conventions of the
underlying SoapySDR library:

* legacy (`< 0x00080000`): `SoapySDRDevice_setupStream` receives the
  caller's `out_stream` pointer and its return value is the status code;
* modern (`>= 0x00080000`): `SoapySDRDevice_setupStream` returns the stream
  handle directly; the shim stores it through `*out_stream` and then calls
  `SoapySDRDevice_lastStatus()` to obtain the status code.

We embed the shim shallowly.  Pointers and opaque handles become `Nat`
values; the caller-visible memory reachable from the shim is an explicit
`CallerState` (the `*out_stream` slot plus an abstract remainder).  The two
underlying library entry points are mock structures, and every call the
shim makes into the library is recorded, in order, in a `List LibCall`
trace, so that call-count, call-order and argument pass-through properties
can be stated.
-/

namespace SoapySDRSys

/-- The arguments of a `setupStream` invocation, exactly the parameter list
of `_rust_wrapper_SoapySDRDevice_setupStream` apart from the `out_stream`
output pointer: opaque device pointer, direction, format byte string,
channel index list, declared channel count, and keyword arguments. -/
structure SetupArgs where
  device : Nat
  direction : Int
  format : List Nat
  channels : List Nat
  numChans : Nat
  args : List (String × String)
deriving DecidableEq

/-- One call made by the shim into the underlying SoapySDR library,
together with the arguments passed to it. -/
inductive LibCall where
  | legacySetupStream : SetupArgs → LibCall
  | modernSetupStream : SetupArgs → LibCall
  | lastStatus : LibCall
deriving DecidableEq

/-- Does a trace event denote a call to the library's stream-setup entry
point (either convention)? -/
def LibCall.isSetupStream : LibCall → Bool
  | .legacySetupStream _ => true
  | .modernSetupStream _ => true
  | .lastStatus => false

/-- The setup arguments carried by a trace event, if it is a stream-setup
call. -/
def LibCall.setupArgs : LibCall → Option SetupArgs
  | .legacySetupStream a => some a
  | .modernSetupStream a => some a
  | .lastStatus => none

/-- Mock of the legacy (`SOAPY_SDR_API_VERSION < 0x00080000`) library entry
point.  `SoapySDRDevice_setupStream a slot` is the behaviour of the C call
`SoapySDRDevice_setupStream(device, out_stream, ...)` where `slot` is the
contents of `*out_stream` before the call: it yields the returned status
code together with the contents of `*out_stream` after the call (the
library may or may not overwrite the slot; the shim never touches it). -/
structure LegacyLib where
  SoapySDRDevice_setupStream : SetupArgs → Nat → Int × Nat

/-- Mock of the modern (`SOAPY_SDR_API_VERSION >= 0x00080000`) library:
`SoapySDRDevice_setupStream` returns the stream handle directly, and
`SoapySDRDevice_lastStatus` is the status code that the subsequent
`SoapySDRDevice_lastStatus()` query reports for that call. -/
structure ModernLib where
  SoapySDRDevice_setupStream : SetupArgs → Nat
  SoapySDRDevice_lastStatus : Int

/-- A build links exactly one library version; the mock carries both
conventions so that the compile-time dispatch can be stated over one
definition. -/
structure SoapyLib where
  legacy : LegacyLib
  modern : ModernLib

/-- The caller-visible state the shim can reach: the `*out_stream` slot it
received a pointer to, and an abstract summary of every other
caller-visible location (globals, the device object, unrelated memory). -/
structure CallerState where
  out_stream : Nat
  other : Nat
deriving DecidableEq

/-- The version threshold `0x00080000` hard-coded in the `#if` of
`wrapper.c` line 12 (and `wrapper.h` line 18). -/
def SOAPY_SDR_API_threshold : Nat := 0x00080000

/-- Shallow embedding of `_rust_wrapper_SoapySDRDevice_setupStream`
(`wrapper.c` lines 3–18).  `SOAPY_SDR_API_VERSION` is the compile-time
version constant the preprocessor branches on.  The result is the returned
status code, the caller-visible state after the call, and the ordered trace
of calls made into the library.

* `#if SOAPY_SDR_API_VERSION < 0x00080000` (line 12): line 13 forwards the
  caller's `out_stream` pointer to `SoapySDRDevice_setupStream` and returns
  its status; the shim itself performs no write, so the slot afterwards
  holds exactly what the library call left there.
* otherwise (lines 15–16): the shim stores the handle returned by
  `SoapySDRDevice_setupStream` through `*out_stream`, then immediately
  calls `SoapySDRDevice_lastStatus()` and returns its value. -/
def _rust_wrapper_SoapySDRDevice_setupStream
    (SOAPY_SDR_API_VERSION : Nat) (lib : SoapyLib)
    (a : SetupArgs) (s : CallerState) :
    Int × CallerState × List LibCall :=
  if SOAPY_SDR_API_VERSION < 0x00080000 then
    let r := lib.legacy.SoapySDRDevice_setupStream a s.out_stream
    (r.1, { s with out_stream := r.2 }, [LibCall.legacySetupStream a])
  else
    let handle := lib.modern.SoapySDRDevice_setupStream a
    (lib.modern.SoapySDRDevice_lastStatus, { s with out_stream := handle },
      [LibCall.modernSetupStream a, LibCall.lastStatus])

/-- Embedding of the version-gated declaration block of `wrapper.h`
lines 18–20: the translation unit declares `SoapySDR_free` exactly when
`SOAPY_SDR_API_VERSION < 0x00080000`. -/
def wrapper_h_declares_SoapySDR_free (SOAPY_SDR_API_VERSION : Nat) : Bool :=
  SOAPY_SDR_API_VERSION < 0x00080000

/-! Concrete mocks and inputs used by the witnesses. -/

/-- The argument record of the spec's concrete scenarios: direction =
receive (0), format "CF32" as bytes, channels [0, 1], numChans 2, empty
keyword arguments. -/
def scenarioArgs : SetupArgs :=
  { device := 1
    direction := 0
    format := [67, 70, 51, 50]
    channels := [0, 1]
    numChans := 2
    args := [] }

/-- Modern-path mock of the spec's failure scenario: setup returns the
failure sentinel handle 0 and the last-status query reports -1. -/
def modernFailLib : SoapyLib :=
  { legacy := { SoapySDRDevice_setupStream := fun _ slot => (0, slot) }
    modern := { SoapySDRDevice_setupStream := fun _ => 0
                SoapySDRDevice_lastStatus := -1 } }

/-- Legacy-path mock of the spec's success scenario: setup returns status 0
and writes handle 0xABCD through the output parameter. -/
def legacyOkLib : SoapyLib :=
  { legacy := { SoapySDRDevice_setupStream := fun _ _ => (0, 0xABCD) }
    modern := { SoapySDRDevice_setupStream := fun _ => 0
                SoapySDRDevice_lastStatus := 0 } }

/-- A mock library whose two conventions both satisfy the status/handle
coherence contract (success status exactly when the produced handle is
non-null). -/
def coherentLib : SoapyLib :=
  { legacy := { SoapySDRDevice_setupStream := fun _ _ => (0, 0xBEEF) }
    modern := { SoapySDRDevice_setupStream := fun _ => 0xF00D
                SoapySDRDevice_lastStatus := 0 } }

/-- A caller state with a poisoned `*out_stream` slot, to observe who
writes it. -/
def poisonedState : CallerState := { out_stream := 0x7777, other := 5 }

/-- C1: in the modern build path (version at or above the threshold), the
shim calls the modern stream-setup entry point, writes the returned handle
through the output slot, then calls the last-status query and returns the
queried status as its own return value. -/
theorem C1_modern_path_returns_queried_status
    (v : Nat) (hv : SOAPY_SDR_API_threshold ≤ v)
    (lib : SoapyLib) (a : SetupArgs) (s : CallerState) :
    _rust_wrapper_SoapySDRDevice_setupStream v lib a s =
      (lib.modern.SoapySDRDevice_lastStatus,
       { s with out_stream := lib.modern.SoapySDRDevice_setupStream a },
       [LibCall.modernSetupStream a, LibCall.lastStatus]) := by
  have hv2 : ¬ v < 0x00080000 := not_lt.mpr hv
  unfold _rust_wrapper_SoapySDRDevice_setupStream
  rw [if_neg hv2]

/-- Witness for C1, on the spec's concrete modern-path scenario: setup
returns handle 0 and the last-status query returns -1, so the shim returns
-1 with the slot holding the failure sentinel 0. -/
theorem C1_witness :
    _rust_wrapper_SoapySDRDevice_setupStream 0x00080000 modernFailLib
      scenarioArgs poisonedState =
      (-1, { out_stream := 0, other := 5 },
       [LibCall.modernSetupStream scenarioArgs, LibCall.lastStatus]) :=
  (C1_modern_path_returns_queried_status 0x00080000 (le_refl _) modernFailLib
    scenarioArgs poisonedState).trans rfl

/-- C2: in the legacy build path (version below the threshold), the shim
forwards the caller's output slot to the legacy stream-setup entry point
and returns exactly its status code; the slot afterwards holds exactly what
the library call left in it, the shim itself writing nothing. -/
theorem C2_legacy_path_forwards_status
    (v : Nat) (hv : v < SOAPY_SDR_API_threshold)
    (lib : SoapyLib) (a : SetupArgs) (s : CallerState) :
    _rust_wrapper_SoapySDRDevice_setupStream v lib a s =
      ((lib.legacy.SoapySDRDevice_setupStream a s.out_stream).1,
       { s with
         out_stream := (lib.legacy.SoapySDRDevice_setupStream a s.out_stream).2 },
       [LibCall.legacySetupStream a]) := by
  have hv2 : v < 0x00080000 := hv
  unfold _rust_wrapper_SoapySDRDevice_setupStream
  rw [if_pos hv2]

/-- Witness for C2, on the spec's concrete legacy-path scenario: the legacy
entry point returns status 0 and writes handle 0xABCD through the output
parameter, and the shim returns 0 with the slot equal to 0xABCD. -/
theorem C2_witness :
    _rust_wrapper_SoapySDRDevice_setupStream 0 legacyOkLib
      scenarioArgs poisonedState =
      (0, { out_stream := 0xABCD, other := 5 },
       [LibCall.legacySetupStream scenarioArgs]) :=
  (C2_legacy_path_forwards_status 0 (by decide) legacyOkLib
    scenarioArgs poisonedState).trans rfl

/-- C3: in either build path, provided the linked library meets its own
contract that the setup call succeeds (status 0) exactly when it produces a
non-null handle, the shim's returned status is 0 if and only if the output
slot holds a non-null handle. -/
theorem C3_status_handle_coherence
    (v : Nat) (lib : SoapyLib) (a : SetupArgs) (s : CallerState)
    (hleg : ∀ a2 slot, (lib.legacy.SoapySDRDevice_setupStream a2 slot).1 = 0 ↔
      (lib.legacy.SoapySDRDevice_setupStream a2 slot).2 ≠ 0)
    (hmod : ∀ a2, lib.modern.SoapySDRDevice_lastStatus = 0 ↔
      lib.modern.SoapySDRDevice_setupStream a2 ≠ 0) :
    ((_rust_wrapper_SoapySDRDevice_setupStream v lib a s).1 = 0 ↔
     (_rust_wrapper_SoapySDRDevice_setupStream v lib a s).2.1.out_stream ≠ 0) := by
  unfold _rust_wrapper_SoapySDRDevice_setupStream
  split
  · simpa using hleg a s.out_stream
  · simpa using hmod a

/-- Witness for C3 with a coherent mock library, in the modern path. -/
theorem C3_witness :
    ((_rust_wrapper_SoapySDRDevice_setupStream 0x00080000 coherentLib
        scenarioArgs poisonedState).1 = 0 ↔
     (_rust_wrapper_SoapySDRDevice_setupStream 0x00080000 coherentLib
        scenarioArgs poisonedState).2.1.out_stream ≠ 0) :=
  C3_status_handle_coherence 0x00080000 coherentLib scenarioArgs poisonedState
    (fun _ _ => by simp [coherentLib]) (fun _ => by simp [coherentLib])

/-- C4: in the modern build path the trace of library calls is exactly the
stream-setup call followed immediately by the last-status query: no other
call into the library occurs between (or around) the two. -/
theorem C4_modern_status_query_adjacent
    (v : Nat) (hv : SOAPY_SDR_API_threshold ≤ v)
    (lib : SoapyLib) (a : SetupArgs) (s : CallerState) :
    (_rust_wrapper_SoapySDRDevice_setupStream v lib a s).2.2 =
      [LibCall.modernSetupStream a, LibCall.lastStatus] := by
  have hv2 : ¬ v < 0x00080000 := not_lt.mpr hv
  unfold _rust_wrapper_SoapySDRDevice_setupStream
  rw [if_neg hv2]

/-- Witness for C4 at a concrete modern-path invocation. -/
theorem C4_witness :
    (_rust_wrapper_SoapySDRDevice_setupStream 0x00080000 modernFailLib
        scenarioArgs poisonedState).2.2 =
      [LibCall.modernSetupStream scenarioArgs, LibCall.lastStatus] :=
  C4_modern_status_query_adjacent 0x00080000 (le_refl _) modernFailLib
    scenarioArgs poisonedState

/-- C5: the two paths are selected purely by comparing the build-time
version constant with the threshold, are mutually exclusive and exhaustive,
and for a fixed build configuration the behaviour of every invocation is
fully that of the single selected path. -/
theorem C5_compile_time_path_selection
    (v : Nat) (lib : SoapyLib) (a : SetupArgs) (s : CallerState) :
    (v < SOAPY_SDR_API_threshold →
      _rust_wrapper_SoapySDRDevice_setupStream v lib a s =
        ((lib.legacy.SoapySDRDevice_setupStream a s.out_stream).1,
         { s with
           out_stream :=
             (lib.legacy.SoapySDRDevice_setupStream a s.out_stream).2 },
         [LibCall.legacySetupStream a])) ∧
    (SOAPY_SDR_API_threshold ≤ v →
      _rust_wrapper_SoapySDRDevice_setupStream v lib a s =
        (lib.modern.SoapySDRDevice_lastStatus,
         { s with out_stream := lib.modern.SoapySDRDevice_setupStream a },
         [LibCall.modernSetupStream a, LibCall.lastStatus])) ∧
    ¬ (v < SOAPY_SDR_API_threshold ∧ SOAPY_SDR_API_threshold ≤ v) ∧
    (v < SOAPY_SDR_API_threshold ∨ SOAPY_SDR_API_threshold ≤ v) := by
  refine ⟨fun hv => ?_, fun hv => ?_, fun h => absurd h.2 (not_le.mpr h.1),
    lt_or_ge v SOAPY_SDR_API_threshold⟩
  · have hv2 : v < 0x00080000 := hv
    unfold _rust_wrapper_SoapySDRDevice_setupStream
    rw [if_pos hv2]
  · have hv2 : ¬ v < 0x00080000 := not_lt.mpr hv
    unfold _rust_wrapper_SoapySDRDevice_setupStream
    rw [if_neg hv2]

/-- Witness for C5: at version 0 the legacy branch of the selection
theorem applies and yields the concrete legacy behaviour. -/
theorem C5_witness :
    _rust_wrapper_SoapySDRDevice_setupStream 0 legacyOkLib
      scenarioArgs poisonedState =
      (0, { out_stream := 0xABCD, other := 5 },
       [LibCall.legacySetupStream scenarioArgs]) :=
  ((C5_compile_time_path_selection 0 legacyOkLib scenarioArgs
      poisonedState).1 (by decide)).trans rfl

/-- C6: in either build path, every stream-setup call the shim makes into
the library carries exactly the argument record the caller supplied: no
field is mutated, reordered or truncated. -/
theorem C6_arguments_passed_verbatim
    (v : Nat) (lib : SoapyLib) (a : SetupArgs) (s : CallerState) :
    ∀ c ∈ (_rust_wrapper_SoapySDRDevice_setupStream v lib a s).2.2,
      c.isSetupStream = true → c.setupArgs = some a := by
  unfold _rust_wrapper_SoapySDRDevice_setupStream
  split <;> intro c hc _ <;>
    simp only [List.mem_cons, List.mem_singleton, List.not_mem_nil,
      or_false] at hc
  · subst hc; rfl
  · rcases hc with hc | hc <;> subst hc <;> simp_all [LibCall.isSetupStream,
      LibCall.setupArgs]

/-- Witness for C6 at a concrete legacy-path invocation: the recorded setup
call carries the scenario arguments unchanged. -/
theorem C6_witness :
    (LibCall.legacySetupStream scenarioArgs).setupArgs = some scenarioArgs :=
  C6_arguments_passed_verbatim 0 legacyOkLib scenarioArgs poisonedState
    (LibCall.legacySetupStream scenarioArgs) (by decide) (by decide)

/-- C7: on every invocation, in either build path, the shim calls the
stream-setup entry point exactly once, and the status it returns is exactly
the library's value: the legacy call's return value below the threshold,
the last-status query's value at or above it. -/
theorem C7_single_setup_call_status_verbatim
    (v : Nat) (lib : SoapyLib) (a : SetupArgs) (s : CallerState) :
    ((_rust_wrapper_SoapySDRDevice_setupStream v lib a s).2.2.countP
        (fun c => c.isSetupStream)) = 1 ∧
    (_rust_wrapper_SoapySDRDevice_setupStream v lib a s).1 =
      (if v < SOAPY_SDR_API_threshold then
        (lib.legacy.SoapySDRDevice_setupStream a s.out_stream).1
      else lib.modern.SoapySDRDevice_lastStatus) := by
  unfold _rust_wrapper_SoapySDRDevice_setupStream
  split
  next h => simp [List.countP, List.countP.go, LibCall.isSetupStream,
    if_pos h, SOAPY_SDR_API_threshold]
  next h => simp [List.countP, List.countP.go, LibCall.isSetupStream,
    if_neg h, SOAPY_SDR_API_threshold]

/-- C8: the shim's only caller-visible effects are the recorded library
calls and the write into the `*out_stream` slot: all other caller-visible
state is returned unchanged, and the shim retains nothing across the call
(its result is a pure function of its arguments). -/
theorem C8_no_other_effects
    (v : Nat) (lib : SoapyLib) (a : SetupArgs) (s : CallerState) :
    (_rust_wrapper_SoapySDRDevice_setupStream v lib a s).2.1.other = s.other ∧
    (_rust_wrapper_SoapySDRDevice_setupStream v lib a s).2.1 =
      { s with
        out_stream :=
          (_rust_wrapper_SoapySDRDevice_setupStream v lib a s).2.1.out_stream } := by
  unfold _rust_wrapper_SoapySDRDevice_setupStream
  split <;> exact ⟨rfl, rfl⟩

/-- C9: in the modern path the shim itself overwrites the output slot with
whatever handle the setup call returned, regardless of the status it then
returns; in the legacy path the slot ends up holding exactly what the
library call left in it, so a library that does not write leaves the
caller's original contents in place. -/
theorem C9_slot_write_discipline
    (v : Nat) (lib : SoapyLib) (a : SetupArgs) (s : CallerState) :
    (SOAPY_SDR_API_threshold ≤ v →
      (_rust_wrapper_SoapySDRDevice_setupStream v lib a s).2.1.out_stream =
        lib.modern.SoapySDRDevice_setupStream a) ∧
    (v < SOAPY_SDR_API_threshold →
      (_rust_wrapper_SoapySDRDevice_setupStream v lib a s).2.1.out_stream =
        (lib.legacy.SoapySDRDevice_setupStream a s.out_stream).2) := by
  constructor
  · intro hv
    have hv2 : ¬ v < 0x00080000 := not_lt.mpr hv
    unfold _rust_wrapper_SoapySDRDevice_setupStream
    rw [if_neg hv2]
  · intro hv
    have hv2 : v < 0x00080000 := hv
    unfold _rust_wrapper_SoapySDRDevice_setupStream
    rw [if_pos hv2]

/-- Witness for C9: in the modern path the poisoned slot is overwritten
with the returned sentinel even though the status is -1, and in the legacy
path a non-writing library leaves the poisoned slot untouched. -/
theorem C9_witness :
    (_rust_wrapper_SoapySDRDevice_setupStream 0x00080000 modernFailLib
        scenarioArgs poisonedState).2.1.out_stream = 0 ∧
    (_rust_wrapper_SoapySDRDevice_setupStream 0 modernFailLib
        scenarioArgs poisonedState).2.1.out_stream = 0x7777 :=
  ⟨((C9_slot_write_discipline 0x00080000 modernFailLib scenarioArgs
      poisonedState).1 (le_refl _)).trans rfl,
   ((C9_slot_write_discipline 0 modernFailLib scenarioArgs
      poisonedState).2 (by decide)).trans rfl⟩

/-- C10: the threshold separating the two calling conventions is exactly
0x00080000; a build declares `SoapySDR_free` exactly when the version is
strictly below 0x00080000, and that is exactly when every invocation of the
shim behaves as the legacy path. -/
theorem C10_threshold_value
    (v : Nat) :
    SOAPY_SDR_API_threshold = 0x00080000 ∧
    (wrapper_h_declares_SoapySDR_free v = true ↔ v < 0x00080000) ∧
    (v < 0x00080000 ↔
      ∀ (lib : SoapyLib) (a : SetupArgs) (s : CallerState),
        _rust_wrapper_SoapySDRDevice_setupStream v lib a s =
          ((lib.legacy.SoapySDRDevice_setupStream a s.out_stream).1,
           { s with
             out_stream :=
               (lib.legacy.SoapySDRDevice_setupStream a s.out_stream).2 },
           [LibCall.legacySetupStream a])) := by
  refine ⟨rfl, by simp [wrapper_h_declares_SoapySDR_free], ?_, ?_⟩
  · intro hv lib a s
    unfold _rust_wrapper_SoapySDRDevice_setupStream
    rw [if_pos hv]

  · intro h
    by_contra hv
    have htr := congrArg (fun r => r.2.2)
      (h legacyOkLib scenarioArgs poisonedState)
    unfold _rust_wrapper_SoapySDRDevice_setupStream at htr
    rw [if_neg hv] at htr
    simp at htr

/-- Witness for C10 at version 0: `SoapySDR_free` is declared and the
legacy behaviour holds concretely. -/
theorem C10_witness :
    wrapper_h_declares_SoapySDR_free 0 = true ∧
    _rust_wrapper_SoapySDRDevice_setupStream 0 legacyOkLib
      scenarioArgs poisonedState =
      (0, { out_stream := 0xABCD, other := 5 },
       [LibCall.legacySetupStream scenarioArgs]) :=
  ⟨((C10_threshold_value 0).2.1).mpr (by decide),
   (((C10_threshold_value 0).2.2).mp (by decide) legacyOkLib scenarioArgs
      poisonedState).trans rfl⟩

end SoapySDRSys
